import Mathlib

/-!
Shallow embedding of `libc/bionic/vdso.cpp` (the vdso function-pointer
table of bionic): the entry-table data model, the discovery algorithm of
`__libc_init_vdso_entries`, the initializer `__libc_init_vdso`, and the
two dispatch trampolines `clock_gettime` / `gettimeofday`.

Addresses and ELF fields are 64-bit unsigned machine integers, modelled
as `Nat` with explicit reduction modulo `2 ^ 64` where the C code's
pointer arithmetic can wrap.  The vdso image itself (a kernel-provided
memory region) is modelled as a structured view: the section-header
table, the program-header table, and three read functions giving what
memory holds at a given address (the dynamic-entry list, the symbol at
index `i` of the symbol table at an address, and the NUL-terminated
string at an address).  The symbol names are the aarch64 ones; x86_64
differs only in the two strings.
-/

namespace Vdso

/-- The modulus of 64-bit pointer arithmetic, 2^64. -/
def MOD : Nat := 18446744073709551616

/-- Wrapping 64-bit addition, as in C `uintptr_t` arithmetic. -/
def add64 (a b : Nat) : Nat := (a + b) % MOD

/-- Wrapping 64-bit subtraction, as in C `uintptr_t` arithmetic. -/
def sub64 (a b : Nat) : Nat := (a + (MOD - b % MOD)) % MOD

def SHT_DYNSYM : Nat := 11
def PT_LOAD : Nat := 1
def PT_DYNAMIC : Nat := 2
def DT_NULL : Nat := 0
def DT_STRTAB : Nat := 5
def DT_SYMTAB : Nat := 6

/-- Byte size of a symbol entry, `sizeof(ElfW(Sym))` for 64-bit ELF. -/
def ELF64_SYM_SIZE : Nat := 24

/-- The two fields of `ElfW(Shdr)` the code reads. -/
structure ElfShdr where
  sh_type : Nat
  sh_size : Nat
deriving DecidableEq

/-- The three fields of `ElfW(Phdr)` the code reads. -/
structure ElfPhdr where
  p_type : Nat
  p_offset : Nat
  p_vaddr : Nat
deriving DecidableEq

/-- The two fields of `ElfW(Dyn)` the code reads (`d_un.d_ptr`). -/
structure ElfDyn where
  d_tag : Nat
  d_ptr : Nat
deriving DecidableEq

/-- The two fields of `ElfW(Sym)` the code reads. -/
structure ElfSym where
  st_name : Nat
  st_value : Nat
deriving DecidableEq

/-- The vdso image as the code observes it.  `ehdr_addr` is
`getauxval(AT_SYSINFO_EHDR)` (0 encodes "no vdso").  `shdrs` is the
section-header table at `e_shoff` (its length is `e_shnum`), `phdrs`
the program-header table at `e_phoff` (length `e_phnum`).  `dyn_at a`
is the sequence of dynamic entries in memory at address `a`, up to and
beyond the `DT_NULL` terminator; `sym_at a i` the `i`-th symbol of the
symbol table at address `a`; `str_at a` the NUL-terminated string at
address `a`. -/
structure VdsoImage where
  ehdr_addr : Nat
  shdrs : List ElfShdr
  phdrs : List ElfPhdr
  dyn_at : Nat → List ElfDyn
  sym_at : Nat → Nat → ElfSym
  str_at : Nat → String

/-- The C struct `vdso_entry`: a symbol name and a callable address. -/
structure vdso_entry where
  name : String
  fn : Nat
deriving DecidableEq

/-- The fixed two-slot table, indexed by the enum
`{VDSO_CLOCK_GETTIME, VDSO_GETTIMEOFDAY}`. -/
structure VdsoEntries where
  VDSO_CLOCK_GETTIME : vdso_entry
  VDSO_GETTIMEOFDAY : vdso_entry
deriving DecidableEq

def VDSO_CLOCK_GETTIME_SYMBOL : String := "__kernel_clock_gettime"
def VDSO_GETTIMEOFDAY_SYMBOL : String := "__kernel_gettimeofday"

/-- The addresses of the fallback syscall wrappers `__clock_gettime`
and `__gettimeofday` (external symbols, hence parameters). -/
structure Fallbacks where
  clock_gettime_fallback : Nat
  gettimeofday_fallback : Nat
deriving DecidableEq

/-- The template table: each slot holds its symbol name and its
fallback address. -/
def vdso_entries_template (fb : Fallbacks) : VdsoEntries :=
  { VDSO_CLOCK_GETTIME :=
      { name := VDSO_CLOCK_GETTIME_SYMBOL, fn := fb.clock_gettime_fallback }
    VDSO_GETTIMEOFDAY :=
      { name := VDSO_GETTIMEOFDAY_SYMBOL, fn := fb.gettimeofday_fallback } }

/-- Slot accessor: index 0 is `VDSO_CLOCK_GETTIME`, index 1 is
`VDSO_GETTIMEOFDAY`, exactly as in the C enum. -/
def slotOf (e : VdsoEntries) : Fin 2 → vdso_entry
  | 0 => e.VDSO_CLOCK_GETTIME
  | 1 => e.VDSO_GETTIMEOFDAY

/-- The compile-time symbol string of each slot. -/
def slotSymbol : Fin 2 → String
  | 0 => VDSO_CLOCK_GETTIME_SYMBOL
  | 1 => VDSO_GETTIMEOFDAY_SYMBOL

/-- The fallback address of each slot. -/
def slotFallback (fb : Fallbacks) : Fin 2 → Nat
  | 0 => fb.clock_gettime_fallback
  | 1 => fb.gettimeofday_fallback

/-- The "How many symbols does it have?" loop: scan the section
headers; every `SHT_DYNSYM` header overwrites `symbol_count` with
`sh_size / sizeof(ElfW(Sym))`. -/
def symbolCount (img : VdsoImage) : Nat :=
  img.shdrs.foldl
    (fun acc sh => if sh.sh_type = SHT_DYNSYM then sh.sh_size / ELF64_SYM_SIZE else acc) 0

/-- The "Where's the dynamic table?" loop: scan the program headers;
every `PT_DYNAMIC` overwrites `vdso_dyn` with
`vdso_ehdr_addr + p_offset`, every `PT_LOAD` overwrites `vdso_addr`
with `vdso_ehdr_addr + p_offset - p_vaddr`.  Returns
`(vdso_addr, vdso_dyn)`; `vdso_addr` starts at 0 and `vdso_dyn` at
`none` (the C null pointer). -/
def phdrScan (img : VdsoImage) : Nat × Option Nat :=
  img.phdrs.foldl
    (fun acc p =>
      if p.p_type = PT_DYNAMIC then
        (acc.1, some (add64 img.ehdr_addr p.p_offset))
      else if p.p_type = PT_LOAD then
        (sub64 (add64 img.ehdr_addr p.p_offset) p.p_vaddr, acc.2)
      else acc)
    (0, none)

/-- The dynamic entries the `d->d_tag != DT_NULL` walk visits. -/
def dynEntries (img : VdsoImage) (dynAddr : Nat) : List ElfDyn :=
  (img.dyn_at dynAddr).takeWhile (fun d => d.d_tag != DT_NULL)

/-- The "Where are the string and symbol tables?" walk: every
`DT_STRTAB` overwrites `strtab` with `vdso_addr + d_ptr`, every
`DT_SYMTAB` overwrites `symtab` with `vdso_addr + d_ptr`.  Returns
`(strtab, symtab)`, both starting at `none` (C null pointers). -/
def dynScan (img : VdsoImage) (vdso_addr dynAddr : Nat) : Option Nat × Option Nat :=
  (dynEntries img dynAddr).foldl
    (fun acc d =>
      if d.d_tag = DT_STRTAB then
        (some (add64 vdso_addr d.d_ptr), acc.2)
      else if d.d_tag = DT_SYMTAB then
        (acc.1, some (add64 vdso_addr d.d_ptr))
      else acc)
    (none, none)

/-- The name of scan entry `i`: the string at
`strtab + symtab[i].st_name`. -/
def symNameAt (img : VdsoImage) (strtab symtab i : Nat) : String :=
  img.str_at (add64 strtab (img.sym_at symtab i).st_name)

/-- The bias-translated value of scan entry `i`:
`vdso_addr + symtab[i].st_value`. -/
def resolvedValue (img : VdsoImage) (symtab vdso_addr i : Nat) : Nat :=
  add64 vdso_addr (img.sym_at symtab i).st_value

/-- The early-return prefix of `__libc_init_vdso_entries`, in source
order: no vdso (`ehdr_addr = 0`), `symbol_count == 0`,
`vdso_addr == 0 || vdso_dyn == nullptr`,
`strtab == nullptr || symtab == nullptr` each abort discovery
(`none`); otherwise the scan context `(vdso_addr, strtab, symtab)` is
produced. -/
def discovery (img : VdsoImage) : Option (Nat × Nat × Nat) :=
  if img.ehdr_addr = 0 then none
  else if symbolCount img = 0 then none
  else if (phdrScan img).1 = 0 then none
  else
    match (phdrScan img).2 with
    | none => none
    | some dynAddr =>
      match (dynScan img (phdrScan img).1 dynAddr).1,
            (dynScan img (phdrScan img).1 dynAddr).2 with
      | some strtab, some symtab => some ((phdrScan img).1, strtab, symtab)
      | some _, none => none
      | none, _ => none

/-- One iteration of the "Are there any symbols we want?" scan at index
`i`: the inner `j` loop compares each slot's name against
`strtab + symtab[i].st_name` and on a match overwrites that slot's
`fn` with `vdso_addr + symtab[i].st_value`; `j = 0`
(VDSO_CLOCK_GETTIME) runs first, then `j = 1` (VDSO_GETTIMEOFDAY). -/
def scan_step (img : VdsoImage) (strtab symtab vdso_addr : Nat)
    (e : VdsoEntries) (i : Nat) : VdsoEntries :=
  let e1 :=
    if e.VDSO_CLOCK_GETTIME.name = symNameAt img strtab symtab i then
      { e with VDSO_CLOCK_GETTIME :=
          ⟨e.VDSO_CLOCK_GETTIME.name, resolvedValue img symtab vdso_addr i⟩ }
    else e
  if e1.VDSO_GETTIMEOFDAY.name = symNameAt img strtab symtab i then
    { e1 with VDSO_GETTIMEOFDAY :=
        ⟨e1.VDSO_GETTIMEOFDAY.name, resolvedValue img symtab vdso_addr i⟩ }
  else e1

/-- The full symbol scan, `i` ranging over `0 .. symbol_count - 1`. -/
def scanSymbols (img : VdsoImage) (strtab symtab vdso_addr n : Nat)
    (e : VdsoEntries) : VdsoEntries :=
  (List.range n).foldl (scan_step img strtab symtab vdso_addr) e

/-- The entry populator `__libc_init_vdso_entries`: start from the
template (the `memcpy`),
and if discovery succeeds run the symbol scan over it. -/
def libc_init_vdso_entries (fb : Fallbacks) (img : VdsoImage) : VdsoEntries :=
  match discovery img with
  | none => vdso_entries_template fb
  | some (vdso_addr, strtab, symtab) =>
    scanSymbols img strtab symtab vdso_addr (symbolCount img) (vdso_entries_template fb)

/-- Outcome of `__libc_init_vdso`: either a `__libc_fatal` call with
its message, or a populated table whose page was `mprotect`ed
`PROT_READ` (recorded as `read_only`). -/
inductive InitOutcome where
  | fatal (msg : String)
  | ok (entries : VdsoEntries) (read_only : Bool)
deriving DecidableEq

/-- Ambient process state consumed by `__libc_init_vdso`: whether
`mmap` succeeds, whether `mprotect` succeeds, `strerror(errno)`, and
the vdso image reachable through the auxiliary vector. -/
structure SysEnv where
  mmap_ok : Bool
  mprotect_ok : Bool
  errno_str : String
  img : VdsoImage

/-- The initializer `__libc_init_vdso`: `mmap` the page (failure is
fatal), populate
the entries, `mprotect` it `PROT_READ` (failure is fatal).  The final
`prctl` naming is advisory and has no functional effect. -/
def libc_init_vdso (fb : Fallbacks) (env : SysEnv) : InitOutcome :=
  if !env.mmap_ok then
    .fatal ("failed to allocate vdso function pointer table: " ++ env.errno_str)
  else
    let entries := libc_init_vdso_entries fb env.img
    if !env.mprotect_ok then
      .fatal ("failed to mprotect PROT_READ vdso function pointer table: " ++ env.errno_str)
    else
      .ok entries true

/-- The C struct `timespec`. -/
structure timespec where
  tv_sec : Int
  tv_nsec : Int
deriving DecidableEq

/-- The C struct `timeval`. -/
structure timeval where
  tv_sec : Int
  tv_usec : Int
deriving DecidableEq

/-- The C struct `timezone`. -/
structure timezone where
  tz_minuteswest : Int
  tz_dsttime : Int
deriving DecidableEq

/-- The machine's semantics of calling the code at an address under
each of the two signatures.  `call_clock_gettime a clock_id tp errno`
is the behaviour of the function at address `a` invoked as
`int (*)(int, timespec*)`: it receives the clock id, the pointee of
`tp`, and the current error indicator, and yields the return value,
the pointee of `tp` after the call, and the error indicator after the
call.  `call_gettimeofday` is the analogue for
`int (*)(timeval*, struct timezone*)`, where `none` models a null
`tz`. -/
structure Machine where
  call_clock_gettime : Nat → Int → timespec → Int → Int × timespec × Int
  call_gettimeofday :
    Nat → timeval → Option timezone → Int → Int × timeval × Option timezone × Int

/-- The `clock_gettime` trampoline: load
`vdso_entries[VDSO_CLOCK_GETTIME].fn`, cast, invoke, return. -/
def clock_gettime (m : Machine) (vdso_entries : VdsoEntries)
    (clock_id : Int) (tp : timespec) (errno : Int) : Int × timespec × Int :=
  let vdso_clock_gettime := m.call_clock_gettime vdso_entries.VDSO_CLOCK_GETTIME.fn
  vdso_clock_gettime clock_id tp errno

/-- The `gettimeofday` trampoline: load
`vdso_entries[VDSO_GETTIMEOFDAY].fn`, cast, invoke, return. -/
def gettimeofday (m : Machine) (vdso_entries : VdsoEntries)
    (tv : timeval) (tz : Option timezone) (errno : Int) :
    Int × timeval × Option timezone × Int :=
  let vdso_gettimeofday := m.call_gettimeofday vdso_entries.VDSO_GETTIMEOFDAY.fn
  vdso_gettimeofday tv tz errno

/-! ### Synthetic vdso images

Concrete images used to exercise the algorithm.  They share a common
layout: the dynamic table lives at file offset `0x400`, `DT_STRTAB`
points at virtual address `0x100` and `DT_SYMTAB` at `0x200`, and one
`PT_LOAD` maps virtual address 0 to file offset 0 (so the load bias
equals the object's base address). -/

/-- Non-null fallback addresses used by the concrete scenarios. -/
def fb0 : Fallbacks :=
  { clock_gettime_fallback := 0x7f0000001000
    gettimeofday_fallback := 0x7f0000002000 }

/-- The common dynamic section of the synthetic images. -/
def testDyn : List ElfDyn := [⟨DT_STRTAB, 0x100⟩, ⟨DT_SYMTAB, 0x200⟩, ⟨DT_NULL, 0⟩]

/-- The common program-header table of the synthetic images: a
`PT_DYNAMIC` at offset `0x400` and a `PT_LOAD` mapping vaddr 0 to
offset 0. -/
def testPhdrs : List ElfPhdr := [⟨PT_DYNAMIC, 0x400, 0⟩, ⟨PT_LOAD, 0, 0⟩]

/-- The common string table of the synthetic images at base `0x10000`:
string offset 0 is the clock-gettime symbol, offset 100 the
gettimeofday symbol (the string table itself sits at address
`0x10100`). -/
def testStr : Nat → String := fun a =>
  if a = 0x10100 then VDSO_CLOCK_GETTIME_SYMBOL
  else if a = 0x10164 then VDSO_GETTIMEOFDAY_SYMBOL
  else ""

/-- C1 scenario: object at base `base`, a `PT_LOAD` mapping vaddr 0 to
offset 0, and a single dynamic symbol carrying the clock-gettime name
at symbol value `0x1000`. -/
def c1_image (base : Nat) : VdsoImage :=
  { ehdr_addr := base
    shdrs := [⟨SHT_DYNSYM, ELF64_SYM_SIZE⟩]
    phdrs := testPhdrs
    dyn_at := fun _ => testDyn
    sym_at := fun _ i => if i = 0 then ⟨0, 0x1000⟩ else ⟨0, 0⟩
    str_at := fun _ => VDSO_CLOCK_GETTIME_SYMBOL }

/-- C2 scenario: the clock-gettime name appears twice, at symbol
values `0x1000` (index 0) and `0x2000` (index 1). -/
def c2_image : VdsoImage :=
  { ehdr_addr := 0x10000
    shdrs := [⟨SHT_DYNSYM, 2 * ELF64_SYM_SIZE⟩]
    phdrs := testPhdrs
    dyn_at := fun _ => testDyn
    sym_at := fun _ i => if i = 0 then ⟨0, 0x1000⟩ else if i = 1 then ⟨0, 0x2000⟩ else ⟨0, 0⟩
    str_at := testStr }

/-- C3 scenario: two `PT_LOAD` segments with differing
offset-minus-vaddr values (`0x2000 - 0x1000` then `0x5000 - 0x1000`). -/
def c3_image : VdsoImage :=
  { ehdr_addr := 0x10000
    shdrs := []
    phdrs := [⟨PT_LOAD, 0x2000, 0x1000⟩, ⟨PT_LOAD, 0x5000, 0x1000⟩]
    dyn_at := fun _ => []
    sym_at := fun _ _ => ⟨0, 0⟩
    str_at := fun _ => "" }

/-- An absent vdso: the auxiliary vector reports base address 0. -/
def null_image : VdsoImage :=
  { ehdr_addr := 0
    shdrs := []
    phdrs := []
    dyn_at := fun _ => []
    sym_at := fun _ _ => ⟨0, 0⟩
    str_at := fun _ => "" }

/-- C5 scenario: the symbol table contains only the gettimeofday name
(string offset 100), at symbol value `0x3000`. -/
def c5_image : VdsoImage :=
  { ehdr_addr := 0x10000
    shdrs := [⟨SHT_DYNSYM, ELF64_SYM_SIZE⟩]
    phdrs := testPhdrs
    dyn_at := fun _ => testDyn
    sym_at := fun _ i => if i = 0 then ⟨100, 0x3000⟩ else ⟨0, 0⟩
    str_at := testStr }

/-- C7 scenario: a matching symbol whose bias-translated value wraps
to 0 (`st_value = 2^64 - base`). -/
def c7_image : VdsoImage :=
  { ehdr_addr := 0x10000
    shdrs := [⟨SHT_DYNSYM, ELF64_SYM_SIZE⟩]
    phdrs := testPhdrs
    dyn_at := fun _ => testDyn
    sym_at := fun _ i => if i = 0 then ⟨0, MOD - 0x10000⟩ else ⟨0, 0⟩
    str_at := testStr }

/-- C9 scenario: two `SHT_DYNSYM` section headers, of byte sizes
`2 * 24` (two symbols) then `1 * 24` (one symbol). -/
def c9_image : VdsoImage :=
  { ehdr_addr := 0x10000
    shdrs := [⟨SHT_DYNSYM, 2 * ELF64_SYM_SIZE⟩, ⟨SHT_DYNSYM, ELF64_SYM_SIZE⟩]
    phdrs := testPhdrs
    dyn_at := fun _ => testDyn
    sym_at := fun _ i => if i = 0 then ⟨0, 0x1000⟩ else ⟨0, 0⟩
    str_at := testStr }

/-- Environment whose `mmap` fails. -/
def env_fail_mmap : SysEnv :=
  { mmap_ok := false, mprotect_ok := true, errno_str := "Out of memory", img := null_image }

/-- Environment whose `mprotect` fails. -/
def env_fail_mprotect : SysEnv :=
  { mmap_ok := true, mprotect_ok := false, errno_str := "Permission denied", img := null_image }

/-- Environment where both primitives succeed and the vdso is absent. -/
def env_ok : SysEnv :=
  { mmap_ok := true, mprotect_ok := true, errno_str := "", img := null_image }

/-! ### Generic lemmas about overwrite-style folds

Every loop in `__libc_init_vdso_entries` has the shape "scan a list,
and on every element satisfying a predicate overwrite an accumulator
with a value computed from that element": the symbol-count loop, both
halves of the program-header loop, both halves of the dynamic-section
walk, and (per slot) the symbol scan.  These lemmas characterise such
folds. -/

theorem foldl_overwrite_nomatch {α β : Type} (p : α → Prop) [DecidablePred p]
    (v : α → β) :
    ∀ (l : List α) (a : β), (∀ x ∈ l, ¬ p x) →
      l.foldl (fun acc x => if p x then v x else acc) a = a := by
  intro l
  induction l with
  | nil => intro a _; rfl
  | cons x l ih =>
    intro a h
    rw [List.foldl_cons, if_neg (h x (List.mem_cons_self x l)), ih]
    intro y hy
    exact h y (List.mem_cons_of_mem x hy)

theorem foldl_overwrite_last {α β : Type} (p : α → Prop) [DecidablePred p]
    (v : α → β) (l1 l2 : List α) (x : α) (a : β)
    (hx : p x) (h2 : ∀ y ∈ l2, ¬ p y) :
    (l1 ++ x :: l2).foldl (fun acc y => if p y then v y else acc) a = v x := by
  rw [List.foldl_append, List.foldl_cons, if_pos hx,
    foldl_overwrite_nomatch p v l2 _ h2]

theorem foldl_overwrite_spec {α β : Type} (p : α → Prop) [DecidablePred p]
    (v : α → β) :
    ∀ (l : List α) (a : β),
      (l.foldl (fun acc x => if p x then v x else acc) a = a ∧ ∀ x ∈ l, ¬ p x) ∨
      (∃ x, x ∈ l ∧ p x ∧
        l.foldl (fun acc x => if p x then v x else acc) a = v x) := by
  intro l
  induction l with
  | nil => intro a; exact Or.inl ⟨rfl, by simp⟩
  | cons x l ih =>
    intro a
    by_cases hx : p x
    · rcases ih (v x) with ⟨heq, hall⟩ | ⟨y, hy, hpy, heq⟩
      · refine Or.inr ⟨x, List.mem_cons_self x l, hx, ?_⟩
        rw [List.foldl_cons, if_pos hx, heq]
      · refine Or.inr ⟨y, List.mem_cons_of_mem x hy, hpy, ?_⟩
        rw [List.foldl_cons, if_pos hx, heq]
    · rcases ih a with ⟨heq, hall⟩ | ⟨y, hy, hpy, heq⟩
      · refine Or.inl ⟨?_, ?_⟩
        · rw [List.foldl_cons, if_neg hx, heq]
        · intro y hy
          rcases List.mem_cons.mp hy with rfl | hy
          · exact hx
          · exact hall y hy
      · refine Or.inr ⟨y, List.mem_cons_of_mem x hy, hpy, ?_⟩
        rw [List.foldl_cons, if_neg hx, heq]

/-- Decomposition of `List.range n` around an index `k < n`. -/
theorem range_split (k n : Nat) (hk : k < n) :
    List.range n = List.range k ++ k :: (List.range (n - (k + 1))).map ((k + 1) + ·) := by
  have h1 : n = (k + 1) + (n - (k + 1)) := by omega
  calc List.range n
      = List.range ((k + 1) + (n - (k + 1))) := by rw [← h1]
    _ = List.range (k + 1) ++ (List.range (n - (k + 1))).map ((k + 1) + ·) :=
        List.range_add (k + 1) (n - (k + 1))
    _ = (List.range k ++ [k]) ++ (List.range (n - (k + 1))).map ((k + 1) + ·) := by
        rw [List.range_succ]
    _ = List.range k ++ k :: (List.range (n - (k + 1))).map ((k + 1) + ·) := by
        rw [List.append_assoc]; rfl

/-! ### Projections of the paired scans -/

theorem phdrScan_fst (img : VdsoImage) :
    (phdrScan img).1 =
      img.phdrs.foldl
        (fun acc q => if q.p_type = PT_LOAD then
          sub64 (add64 img.ehdr_addr q.p_offset) q.p_vaddr else acc) 0 := by
  have aux : ∀ (l : List ElfPhdr) (a : Nat × Option Nat),
      (l.foldl
        (fun acc p =>
          if p.p_type = PT_DYNAMIC then
            (acc.1, some (add64 img.ehdr_addr p.p_offset))
          else if p.p_type = PT_LOAD then
            (sub64 (add64 img.ehdr_addr p.p_offset) p.p_vaddr, acc.2)
          else acc) a).1 =
      l.foldl
        (fun acc q => if q.p_type = PT_LOAD then
          sub64 (add64 img.ehdr_addr q.p_offset) q.p_vaddr else acc) a.1 := by
    intro l
    induction l with
    | nil => intro a; rfl
    | cons q l ih =>
      intro a
      rw [List.foldl_cons, List.foldl_cons, ih]
      by_cases h2 : q.p_type = PT_DYNAMIC
      · have h1 : ¬ q.p_type = PT_LOAD := by
          rw [h2]; unfold PT_DYNAMIC PT_LOAD; omega
        rw [if_pos h2, if_neg h1]
      · rw [if_neg h2]
        by_cases h1 : q.p_type = PT_LOAD
        · rw [if_pos h1, if_pos h1]
        · rw [if_neg h1, if_neg h1]
  exact aux img.phdrs (0, none)

theorem phdrScan_snd (img : VdsoImage) :
    (phdrScan img).2 =
      img.phdrs.foldl
        (fun acc q => if q.p_type = PT_DYNAMIC then
          some (add64 img.ehdr_addr q.p_offset) else acc) none := by
  have aux : ∀ (l : List ElfPhdr) (a : Nat × Option Nat),
      (l.foldl
        (fun acc p =>
          if p.p_type = PT_DYNAMIC then
            (acc.1, some (add64 img.ehdr_addr p.p_offset))
          else if p.p_type = PT_LOAD then
            (sub64 (add64 img.ehdr_addr p.p_offset) p.p_vaddr, acc.2)
          else acc) a).2 =
      l.foldl
        (fun acc q => if q.p_type = PT_DYNAMIC then
          some (add64 img.ehdr_addr q.p_offset) else acc) a.2 := by
    intro l
    induction l with
    | nil => intro a; rfl
    | cons q l ih =>
      intro a
      rw [List.foldl_cons, List.foldl_cons, ih]
      by_cases h2 : q.p_type = PT_DYNAMIC
      · rw [if_pos h2, if_pos h2]
      · rw [if_neg h2, if_neg h2]
        by_cases h1 : q.p_type = PT_LOAD
        · rw [if_pos h1]
        · rw [if_neg h1]
  exact aux img.phdrs (0, none)

theorem dynScan_fst (img : VdsoImage) (vdso_addr dynAddr : Nat) :
    (dynScan img vdso_addr dynAddr).1 =
      (dynEntries img dynAddr).foldl
        (fun acc d => if d.d_tag = DT_STRTAB then
          some (add64 vdso_addr d.d_ptr) else acc) none := by
  have aux : ∀ (l : List ElfDyn) (a : Option Nat × Option Nat),
      (l.foldl
        (fun acc d =>
          if d.d_tag = DT_STRTAB then
            (some (add64 vdso_addr d.d_ptr), acc.2)
          else if d.d_tag = DT_SYMTAB then
            (acc.1, some (add64 vdso_addr d.d_ptr))
          else acc) a).1 =
      l.foldl
        (fun acc d => if d.d_tag = DT_STRTAB then
          some (add64 vdso_addr d.d_ptr) else acc) a.1 := by
    intro l
    induction l with
    | nil => intro a; rfl
    | cons d l ih =>
      intro a
      rw [List.foldl_cons, List.foldl_cons, ih]
      by_cases h5 : d.d_tag = DT_STRTAB
      · rw [if_pos h5, if_pos h5]
      · rw [if_neg h5, if_neg h5]
        by_cases h6 : d.d_tag = DT_SYMTAB
        · rw [if_pos h6]
        · rw [if_neg h6]
  exact aux (dynEntries img dynAddr) (none, none)

theorem dynScan_snd (img : VdsoImage) (vdso_addr dynAddr : Nat) :
    (dynScan img vdso_addr dynAddr).2 =
      (dynEntries img dynAddr).foldl
        (fun acc d => if d.d_tag = DT_SYMTAB then
          some (add64 vdso_addr d.d_ptr) else acc) none := by
  have aux : ∀ (l : List ElfDyn) (a : Option Nat × Option Nat),
      (l.foldl
        (fun acc d =>
          if d.d_tag = DT_STRTAB then
            (some (add64 vdso_addr d.d_ptr), acc.2)
          else if d.d_tag = DT_SYMTAB then
            (acc.1, some (add64 vdso_addr d.d_ptr))
          else acc) a).2 =
      l.foldl
        (fun acc d => if d.d_tag = DT_SYMTAB then
          some (add64 vdso_addr d.d_ptr) else acc) a.2 := by
    intro l
    induction l with
    | nil => intro a; rfl
    | cons d l ih =>
      intro a
      rw [List.foldl_cons, List.foldl_cons, ih]
      by_cases h5 : d.d_tag = DT_STRTAB
      · have h6 : ¬ d.d_tag = DT_SYMTAB := by
          rw [h5]; unfold DT_STRTAB DT_SYMTAB; omega
        rw [if_pos h5, if_neg h6]
      · rw [if_neg h5]
        by_cases h6 : d.d_tag = DT_SYMTAB
        · rw [if_pos h6, if_pos h6]
        · rw [if_neg h6, if_neg h6]
  exact aux (dynEntries img dynAddr) (none, none)

/-! ### Per-slot projections of the symbol scan -/

theorem scan_step_cg (img : VdsoImage) (strtab symtab vdso_addr : Nat)
    (e : VdsoEntries) (i : Nat) :
    (scan_step img strtab symtab vdso_addr e i).VDSO_CLOCK_GETTIME =
      if e.VDSO_CLOCK_GETTIME.name = symNameAt img strtab symtab i then
        ⟨e.VDSO_CLOCK_GETTIME.name, resolvedValue img symtab vdso_addr i⟩
      else e.VDSO_CLOCK_GETTIME := by
  unfold scan_step
  by_cases h1 : e.VDSO_CLOCK_GETTIME.name = symNameAt img strtab symtab i
  · rw [if_pos h1]
    dsimp only
    split
    · rfl
    · rfl
  · rw [if_neg h1]
    dsimp only
    split
    · rfl
    · rfl

theorem scan_step_gt (img : VdsoImage) (strtab symtab vdso_addr : Nat)
    (e : VdsoEntries) (i : Nat) :
    (scan_step img strtab symtab vdso_addr e i).VDSO_GETTIMEOFDAY =
      if e.VDSO_GETTIMEOFDAY.name = symNameAt img strtab symtab i then
        ⟨e.VDSO_GETTIMEOFDAY.name, resolvedValue img symtab vdso_addr i⟩
      else e.VDSO_GETTIMEOFDAY := by
  unfold scan_step
  by_cases h1 : e.VDSO_CLOCK_GETTIME.name = symNameAt img strtab symtab i
  · rw [if_pos h1]
    dsimp only
    by_cases h2 : e.VDSO_GETTIMEOFDAY.name = symNameAt img strtab symtab i
    · rw [if_pos h2, if_pos h2]
    · rw [if_neg h2, if_neg h2]
  · rw [if_neg h1]
    dsimp only
    by_cases h2 : e.VDSO_GETTIMEOFDAY.name = symNameAt img strtab symtab i
    · rw [if_pos h2, if_pos h2]
    · rw [if_neg h2, if_neg h2]

theorem scanFold_cg (img : VdsoImage) (strtab symtab vdso_addr : Nat) :
    ∀ (l : List Nat) (e : VdsoEntries),
      (l.foldl (scan_step img strtab symtab vdso_addr) e).VDSO_CLOCK_GETTIME =
        ⟨e.VDSO_CLOCK_GETTIME.name,
         l.foldl
           (fun fn i =>
             if e.VDSO_CLOCK_GETTIME.name = symNameAt img strtab symtab i then
               resolvedValue img symtab vdso_addr i
             else fn)
           e.VDSO_CLOCK_GETTIME.fn⟩ := by
  intro l
  induction l with
  | nil => intro e; rfl
  | cons i l ih =>
    intro e
    rw [List.foldl_cons, List.foldl_cons, ih]
    rw [scan_step_cg]
    by_cases h1 : e.VDSO_CLOCK_GETTIME.name = symNameAt img strtab symtab i
    · rw [if_pos h1, if_pos h1]
    · rw [if_neg h1, if_neg h1]

theorem scanFold_gt (img : VdsoImage) (strtab symtab vdso_addr : Nat) :
    ∀ (l : List Nat) (e : VdsoEntries),
      (l.foldl (scan_step img strtab symtab vdso_addr) e).VDSO_GETTIMEOFDAY =
        ⟨e.VDSO_GETTIMEOFDAY.name,
         l.foldl
           (fun fn i =>
             if e.VDSO_GETTIMEOFDAY.name = symNameAt img strtab symtab i then
               resolvedValue img symtab vdso_addr i
             else fn)
           e.VDSO_GETTIMEOFDAY.fn⟩ := by
  intro l
  induction l with
  | nil => intro e; rfl
  | cons i l ih =>
    intro e
    rw [List.foldl_cons, List.foldl_cons, ih]
    rw [scan_step_gt]
    by_cases h1 : e.VDSO_GETTIMEOFDAY.name = symNameAt img strtab symtab i
    · rw [if_pos h1, if_pos h1]
    · rw [if_neg h1, if_neg h1]

/-- Slot-indexed form of the two scan-fold projections. -/
theorem scanFold_slot (img : VdsoImage) (strtab symtab vdso_addr : Nat)
    (l : List Nat) (e : VdsoEntries) (s : Fin 2) :
    slotOf (l.foldl (scan_step img strtab symtab vdso_addr) e) s =
      ⟨(slotOf e s).name,
       l.foldl
         (fun fn i =>
           if (slotOf e s).name = symNameAt img strtab symtab i then
             resolvedValue img symtab vdso_addr i
           else fn)
         (slotOf e s).fn⟩ := by
  match s with
  | 0 => exact scanFold_cg img strtab symtab vdso_addr l e
  | 1 => exact scanFold_gt img strtab symtab vdso_addr l e

/-- The template slot `s` is `⟨slotSymbol s, slotFallback fb s⟩`. -/
theorem template_slot (fb : Fallbacks) (s : Fin 2) :
    slotOf (vdso_entries_template fb) s = ⟨slotSymbol s, slotFallback fb s⟩ := by
  match s with
  | 0 => rfl
  | 1 => rfl

/-- Successful discovery reduces `libc_init_vdso_entries` to the scan. -/
theorem init_entries_of_discovery (fb : Fallbacks) (img : VdsoImage)
    (vdso_addr strtab symtab : Nat)
    (hd : discovery img = some (vdso_addr, strtab, symtab)) :
    libc_init_vdso_entries fb img =
      scanSymbols img strtab symtab vdso_addr (symbolCount img)
        (vdso_entries_template fb) := by
  unfold libc_init_vdso_entries
  rw [hd]

/-- Failed discovery leaves the template in place. -/
theorem init_entries_of_none (fb : Fallbacks) (img : VdsoImage)
    (hd : discovery img = none) :
    libc_init_vdso_entries fb img = vdso_entries_template fb := by
  unfold libc_init_vdso_entries
  rw [hd]

/-! ### The abort conditions of discovery -/

theorem discovery_none_of_ehdr_zero (img : VdsoImage)
    (h : img.ehdr_addr = 0) : discovery img = none := by
  unfold discovery
  rw [if_pos h]

theorem discovery_none_of_count_zero (img : VdsoImage)
    (h : symbolCount img = 0) : discovery img = none := by
  unfold discovery
  rw [if_pos h]
  exact ite_self none

theorem discovery_none_of_addr_zero (img : VdsoImage)
    (h : (phdrScan img).1 = 0) : discovery img = none := by
  unfold discovery
  rw [if_pos h, ite_self, ite_self]

theorem discovery_none_of_dyn_none (img : VdsoImage)
    (h : (phdrScan img).2 = none) : discovery img = none := by
  unfold discovery
  rw [h]
  rw [ite_self, ite_self, ite_self]

theorem discovery_none_of_strtab_none (img : VdsoImage) (dynAddr : Nat)
    (h2 : (phdrScan img).2 = some dynAddr)
    (hs : (dynScan img (phdrScan img).1 dynAddr).1 = none) :
    discovery img = none := by
  unfold discovery
  rw [h2]
  simp only [hs]
  rw [ite_self, ite_self, ite_self]

theorem discovery_none_of_symtab_none (img : VdsoImage) (dynAddr : Nat)
    (h2 : (phdrScan img).2 = some dynAddr)
    (hs : (dynScan img (phdrScan img).1 dynAddr).2 = none) :
    discovery img = none := by
  unfold discovery
  rw [h2]
  simp only [hs]
  cases h1 : (dynScan img (phdrScan img).1 dynAddr).1 with
  | none => rw [ite_self, ite_self, ite_self]
  | some strtab => rw [ite_self, ite_self, ite_self]

/-- Discovery succeeds when every stage produces a value. -/
theorem discovery_some (img : VdsoImage) (dynAddr strtab symtab : Nat)
    (h0 : img.ehdr_addr ≠ 0) (hc : symbolCount img ≠ 0)
    (ha : (phdrScan img).1 ≠ 0) (h2 : (phdrScan img).2 = some dynAddr)
    (hs : (dynScan img (phdrScan img).1 dynAddr).1 = some strtab)
    (hy : (dynScan img (phdrScan img).1 dynAddr).2 = some symtab) :
    discovery img = some ((phdrScan img).1, strtab, symtab) := by
  unfold discovery
  rw [if_neg h0, if_neg hc, if_neg ha, h2]
  simp only [hs, hy]

theorem symbolCount_zero_of_no_dynsym (img : VdsoImage)
    (h : ∀ sh ∈ img.shdrs, sh.sh_type ≠ SHT_DYNSYM) : symbolCount img = 0 := by
  unfold symbolCount
  exact foldl_overwrite_nomatch (fun sh : ElfShdr => sh.sh_type = SHT_DYNSYM)
    (fun sh : ElfShdr => sh.sh_size / ELF64_SYM_SIZE) img.shdrs 0 h

theorem phdrScan_fst_zero_of_no_load (img : VdsoImage)
    (h : ∀ p ∈ img.phdrs, p.p_type ≠ PT_LOAD) : (phdrScan img).1 = 0 := by
  rw [phdrScan_fst]
  exact foldl_overwrite_nomatch (fun q => q.p_type = PT_LOAD)
    (fun q => sub64 (add64 img.ehdr_addr q.p_offset) q.p_vaddr) img.phdrs 0 h

theorem phdrScan_snd_none_of_no_dynamic (img : VdsoImage)
    (h : ∀ p ∈ img.phdrs, p.p_type ≠ PT_DYNAMIC) : (phdrScan img).2 = none := by
  rw [phdrScan_snd]
  exact foldl_overwrite_nomatch (fun q => q.p_type = PT_DYNAMIC)
    (fun q => some (add64 img.ehdr_addr q.p_offset)) img.phdrs none h

theorem dynScan_fst_none_of_no_strtab (img : VdsoImage) (vdso_addr dynAddr : Nat)
    (h : ∀ d ∈ dynEntries img dynAddr, d.d_tag ≠ DT_STRTAB) :
    (dynScan img vdso_addr dynAddr).1 = none := by
  rw [dynScan_fst]
  exact foldl_overwrite_nomatch (fun d => d.d_tag = DT_STRTAB)
    (fun d => some (add64 vdso_addr d.d_ptr)) (dynEntries img dynAddr) none h

theorem dynScan_snd_none_of_no_symtab (img : VdsoImage) (vdso_addr dynAddr : Nat)
    (h : ∀ d ∈ dynEntries img dynAddr, d.d_tag ≠ DT_SYMTAB) :
    (dynScan img vdso_addr dynAddr).2 = none := by
  rw [dynScan_snd]
  exact foldl_overwrite_nomatch (fun d => d.d_tag = DT_SYMTAB)
    (fun d => some (add64 vdso_addr d.d_ptr)) (dynEntries img dynAddr) none h

/-! ### The claims -/

/-- Claim C1: for an object whose loadable segment maps virtual
address 0 to file offset 0 (load bias equals the object's base
address) and whose dynamic symbol table contains an entry named
exactly the monotonic-clock slot's symbol name with symbol value
`0x1000`, after initialization the `VDSO_CLOCK_GETTIME` slot's
address equals the object's base address plus `0x1000`. -/
theorem claim_C1 (fb : Fallbacks) (base : Nat)
    (h0 : base ≠ 0) (hlt : base + 0x1000 < MOD) :
    (libc_init_vdso_entries fb (c1_image base)).VDSO_CLOCK_GETTIME.fn =
      base + 0x1000 := by
  have hMOD : MOD = 18446744073709551616 := rfl
  have hbase : base < MOD := by omega
  have hva : (phdrScan (c1_image base)).1 = base := by
    have hva1 : (phdrScan (c1_image base)).1 = sub64 (add64 base 0) 0 := rfl
    rw [hva1]
    unfold sub64 add64
    rw [hMOD]
    rw [hMOD] at hbase
    omega
  have hdisc : discovery (c1_image base) =
      some (base, add64 base 0x100, add64 base 0x200) := by
    have h2 : (phdrScan (c1_image base)).2 = some (add64 base 0x400) := rfl
    have hs : (dynScan (c1_image base) ((phdrScan (c1_image base)).1)
        (add64 base 0x400)).1 =
        some (add64 ((phdrScan (c1_image base)).1) 0x100) := rfl
    have hy : (dynScan (c1_image base) ((phdrScan (c1_image base)).1)
        (add64 base 0x400)).2 =
        some (add64 ((phdrScan (c1_image base)).1) 0x200) := rfl
    have h0i : (c1_image base).ehdr_addr ≠ 0 := h0
    have hci : symbolCount (c1_image base) ≠ 0 := by
      have : symbolCount (c1_image base) = 1 := rfl
      omega
    have hai : (phdrScan (c1_image base)).1 ≠ 0 := by rw [hva]; exact h0
    have hd := discovery_some (c1_image base) (add64 base 0x400)
      (add64 ((phdrScan (c1_image base)).1) 0x100)
      (add64 ((phdrScan (c1_image base)).1) 0x200) h0i hci hai h2 hs hy
    rw [hva] at hd
    exact hd
  rw [init_entries_of_discovery fb (c1_image base) base
    (add64 base 0x100) (add64 base 0x200) hdisc]
  unfold scanSymbols
  rw [show List.range (symbolCount (c1_image base)) = [0] from rfl]
  rw [List.foldl_cons, List.foldl_nil]
  rw [scan_step_cg]
  have hname : (vdso_entries_template fb).VDSO_CLOCK_GETTIME.name =
      symNameAt (c1_image base) (add64 base 0x100) (add64 base 0x200) 0 := rfl
  rw [if_pos hname]
  show resolvedValue (c1_image base) (add64 base 0x200) base 0 = base + 0x1000
  have hres : resolvedValue (c1_image base) (add64 base 0x200) base 0 =
      add64 base 0x1000 := rfl
  rw [hres]
  unfold add64
  rw [hMOD]
  rw [hMOD] at hlt
  omega

/-- Witness for C1 at base `0x7f0012340000`. -/
theorem claim_C1_witness :
    (libc_init_vdso_entries fb0 (c1_image 0x7f0012340000)).VDSO_CLOCK_GETTIME.fn =
      0x7f0012340000 + 0x1000 :=
  claim_C1 fb0 0x7f0012340000 (by decide) (by decide)

/-- Claim C2: whenever the wanted symbol name of slot `s` matches at
two scan positions `j < k` and at no position after `k`, the slot
ends up holding the bias-translated value of the entry at `k`: the
last match encountered wins and every earlier match is overwritten. -/
theorem claim_C2 (fb : Fallbacks) (img : VdsoImage) (va st sy : Nat) (s : Fin 2)
    (hd : discovery img = some (va, st, sy)) (j k : Nat)
    (hjk : j < k) (hk : k < symbolCount img)
    (hj : symNameAt img st sy j = slotSymbol s)
    (hkm : symNameAt img st sy k = slotSymbol s)
    (hlast : ∀ m, m < symbolCount img → k < m → symNameAt img st sy m ≠ slotSymbol s) :
    (slotOf (libc_init_vdso_entries fb img) s).fn = resolvedValue img sy va k := by
  rw [init_entries_of_discovery fb img va st sy hd]
  unfold scanSymbols
  rw [scanFold_slot, template_slot]
  dsimp only
  rw [range_split k (symbolCount img) hk]
  refine foldl_overwrite_last
    (fun i : Nat => slotSymbol s = symNameAt img st sy i)
    (fun i => resolvedValue img sy va i)
    (List.range k) ((List.range (symbolCount img - (k + 1))).map ((k + 1) + ·))
    k (slotFallback fb s) hkm.symm ?_
  intro y hy h
  obtain ⟨jj, hjj, rfl⟩ := List.mem_map.mp hy
  have hjjlt := List.mem_range.mp hjj
  exact hlast ((k + 1) + jj) (by omega) (by omega) h.symm

/-- Witness for C2: in `c2_image` the clock-gettime name appears at
indices 0 (value `0x1000`) and 1 (value `0x2000`); the slot resolves
to `0x10000 + 0x2000`. -/
theorem claim_C2_witness :
    (slotOf (libc_init_vdso_entries fb0 c2_image) 0).fn = 0x12000 :=
  claim_C2 fb0 c2_image 0x10000 0x10100 0x10200 0 (by decide) 0 1
    (by decide) (by decide) (by decide) (by decide) (by decide)

/-- Counterexample to claim C3 as stated: in `c3_image` the first
loadable segment has offset `0x2000` and vaddr `0x1000` (predicting
load bias `0x11000`), but the scan yields `0x14000`, the value from
the second (last) loadable segment. -/
theorem claim_C3_counterexample :
    (phdrScan c3_image).1 = 0x14000 ∧
      (phdrScan c3_image).1 ≠ sub64 (add64 c3_image.ehdr_addr 0x2000) 0x1000 := by
  constructor
  · decide
  · decide

/-- Claim C3 as amended: the load bias is computed from the **last**
loadable-segment descriptor found while scanning the program headers
(base = object base + offset − vaddr, in wrapping 64-bit
arithmetic); with two or more loadable segments, the last one wins. -/
theorem claim_C3_amended (img : VdsoImage) (l1 l2 : List ElfPhdr) (p : ElfPhdr)
    (hsplit : img.phdrs = l1 ++ p :: l2) (hp : p.p_type = PT_LOAD)
    (hlast : ∀ q ∈ l2, q.p_type ≠ PT_LOAD) :
    (phdrScan img).1 = sub64 (add64 img.ehdr_addr p.p_offset) p.p_vaddr := by
  rw [phdrScan_fst, hsplit]
  exact foldl_overwrite_last (fun q : ElfPhdr => q.p_type = PT_LOAD)
    (fun q : ElfPhdr => sub64 (add64 img.ehdr_addr q.p_offset) q.p_vaddr)
    l1 l2 p 0 hp hlast

/-- Witness for the amended C3 on `c3_image`. -/
theorem claim_C3_amended_witness : (phdrScan c3_image).1 = 0x14000 := by
  have h := claim_C3_amended c3_image [⟨PT_LOAD, 0x2000, 0x1000⟩] []
    ⟨PT_LOAD, 0x5000, 0x1000⟩ rfl rfl (by decide)
  rw [h]
  decide

/-- Claim C9: the symbol count is derived from the byte size of the
last `SHT_DYNSYM` section in section-header order; counts from
earlier such sections are discarded. -/
theorem claim_C9 (img : VdsoImage) (l1 l2 : List ElfShdr) (sh : ElfShdr)
    (hsplit : img.shdrs = l1 ++ sh :: l2) (hsh : sh.sh_type = SHT_DYNSYM)
    (hlast : ∀ u ∈ l2, u.sh_type ≠ SHT_DYNSYM) :
    symbolCount img = sh.sh_size / ELF64_SYM_SIZE := by
  unfold symbolCount
  rw [hsplit]
  exact foldl_overwrite_last (fun u : ElfShdr => u.sh_type = SHT_DYNSYM)
    (fun u : ElfShdr => u.sh_size / ELF64_SYM_SIZE) l1 l2 sh 0 hsh hlast

/-- Witness for C9: `c9_image` has two `SHT_DYNSYM` headers (sizes 48
then 24); the count comes from the last one (1 symbol, not 2). -/
theorem claim_C9_witness : symbolCount c9_image = 1 ∧ (1 : Nat) ≠ 2 := by
  have h := claim_C9 c9_image [⟨SHT_DYNSYM, 2 * ELF64_SYM_SIZE⟩] []
    ⟨SHT_DYNSYM, ELF64_SYM_SIZE⟩ rfl rfl (by decide)
  exact ⟨h, by decide⟩

/-- Claim C4: whenever discovery aborts — auxiliary-vector base
address zero, no dynamic-symbol section or zero symbol count, no
dynamic-section or loadable-segment descriptor among the program
headers, or no string/symbol table in the dynamic section — both
slots equal their fallback template exactly, and (the only diagnostic
channel being `__libc_fatal`) the initializer completes silently with
`ok` whenever the two infrastructure primitives succeed. -/
theorem claim_C4 (fb : Fallbacks) (env : SysEnv)
    (habort :
      env.img.ehdr_addr = 0 ∨
      (∀ sh ∈ env.img.shdrs, sh.sh_type ≠ SHT_DYNSYM) ∨
      symbolCount env.img = 0 ∨
      (∀ p ∈ env.img.phdrs, p.p_type ≠ PT_DYNAMIC) ∨
      (∀ p ∈ env.img.phdrs, p.p_type ≠ PT_LOAD) ∨
      (∀ a, (phdrScan env.img).2 = some a →
        ∀ d ∈ dynEntries env.img a, d.d_tag ≠ DT_STRTAB) ∨
      (∀ a, (phdrScan env.img).2 = some a →
        ∀ d ∈ dynEntries env.img a, d.d_tag ≠ DT_SYMTAB)) :
    libc_init_vdso_entries fb env.img = vdso_entries_template fb ∧
      (env.mmap_ok = true → env.mprotect_ok = true →
        libc_init_vdso fb env = .ok (vdso_entries_template fb) true) := by
  have hnone : discovery env.img = none := by
    rcases habort with h | h | h | h | h | h | h
    · exact discovery_none_of_ehdr_zero env.img h
    · exact discovery_none_of_count_zero env.img
        (symbolCount_zero_of_no_dynsym env.img h)
    · exact discovery_none_of_count_zero env.img h
    · exact discovery_none_of_dyn_none env.img
        (phdrScan_snd_none_of_no_dynamic env.img h)
    · exact discovery_none_of_addr_zero env.img
        (phdrScan_fst_zero_of_no_load env.img h)
    · cases h2 : (phdrScan env.img).2 with
      | none => exact discovery_none_of_dyn_none env.img h2
      | some a =>
        exact discovery_none_of_strtab_none env.img a h2
          (dynScan_fst_none_of_no_strtab env.img _ a (h a h2))
    · cases h2 : (phdrScan env.img).2 with
      | none => exact discovery_none_of_dyn_none env.img h2
      | some a =>
        exact discovery_none_of_symtab_none env.img a h2
          (dynScan_snd_none_of_no_symtab env.img _ a (h a h2))
  have h1 : libc_init_vdso_entries fb env.img = vdso_entries_template fb :=
    init_entries_of_none fb env.img hnone
  refine ⟨h1, fun hm hp => ?_⟩
  unfold libc_init_vdso
  rw [hm, hp]
  simp [h1]

/-- Witness for C4: an absent vdso (auxiliary-vector value 0) leaves
the template in place and the initializer returns `ok`. -/
theorem claim_C4_witness :
    libc_init_vdso fb0 env_ok = .ok (vdso_entries_template fb0) true :=
  (claim_C4 fb0 env_ok (Or.inl rfl)).2 rfl rfl

/-- Claim C5: if the symbol table (as scanned) matches the wanted
name of slot `s` at least once and never matches the wanted name of
the other slot `t`, then after initialization slot `t` still holds
its fallback entry exactly, while slot `s` holds the bias-translated
value of one of the matching entries. -/
theorem claim_C5 (fb : Fallbacks) (img : VdsoImage) (va st sy : Nat)
    (hd : discovery img = some (va, st, sy)) (s t : Fin 2) (hst : s ≠ t)
    (hmatch : ∃ i, i < symbolCount img ∧ symNameAt img st sy i = slotSymbol s)
    (hnone : ∀ i, i < symbolCount img → symNameAt img st sy i ≠ slotSymbol t) :
    slotOf (libc_init_vdso_entries fb img) t = ⟨slotSymbol t, slotFallback fb t⟩ ∧
      ∃ i, i < symbolCount img ∧ symNameAt img st sy i = slotSymbol s ∧
        (slotOf (libc_init_vdso_entries fb img) s).fn = resolvedValue img sy va i := by
  rw [init_entries_of_discovery fb img va st sy hd]
  unfold scanSymbols
  constructor
  · rw [scanFold_slot, template_slot]
    have hfold := foldl_overwrite_nomatch
      (fun i : Nat => slotSymbol t = symNameAt img st sy i)
      (fun i => resolvedValue img sy va i)
      (List.range (symbolCount img)) (slotFallback fb t)
      (fun i hi h => hnone i (List.mem_range.mp hi) h.symm)
    dsimp only
    rw [hfold]
  · rw [scanFold_slot, template_slot]
    dsimp only
    rcases foldl_overwrite_spec
        (fun i : Nat => slotSymbol s = symNameAt img st sy i)
        (fun i => resolvedValue img sy va i)
        (List.range (symbolCount img)) (slotFallback fb s) with
      ⟨heq, hall⟩ | ⟨x, hx, hpx, heq⟩
    · rcases hmatch with ⟨i, hi, hname⟩
      exact absurd hname.symm (hall i (List.mem_range.mpr hi))
    · exact ⟨x, List.mem_range.mp hx, hpx.symm, heq⟩

/-- Witness for C5: `c5_image` exposes only the gettimeofday name;
slot 0 (clock-gettime) keeps its fallback entry. -/
theorem claim_C5_witness :
    slotOf (libc_init_vdso_entries fb0 c5_image) 0 =
      ⟨slotSymbol 0, slotFallback fb0 0⟩ :=
  (claim_C5 fb0 c5_image 0x10000 0x10100 0x10200 (by decide) 1 0 (by decide)
    ⟨0, by decide, by decide⟩ (by decide)).1

/-- Claim C6: the initializer terminates through the fatal-abort
primitive, with a message carrying the system error description,
exactly when `mmap` or `mprotect` fails; when both succeed it returns
normally with the table populated and read-only, regardless of any
discovery failure. -/
theorem claim_C6 (fb : Fallbacks) (env : SysEnv) :
    (env.mmap_ok = false →
      libc_init_vdso fb env =
        .fatal ("failed to allocate vdso function pointer table: " ++ env.errno_str)) ∧
    (env.mmap_ok = true → env.mprotect_ok = false →
      libc_init_vdso fb env =
        .fatal ("failed to mprotect PROT_READ vdso function pointer table: " ++
          env.errno_str)) ∧
    (env.mmap_ok = true → env.mprotect_ok = true →
      libc_init_vdso fb env = .ok (libc_init_vdso_entries fb env.img) true) := by
  refine ⟨fun hm => ?_, fun hm hp => ?_, fun hm hp => ?_⟩
  · unfold libc_init_vdso
    rw [hm]
    simp
  · unfold libc_init_vdso
    rw [hm, hp]
    simp
  · unfold libc_init_vdso
    rw [hm, hp]
    simp

/-- Witness for C6: a failing `mmap` is fatal with the system error
description appended. -/
theorem claim_C6_witness :
    libc_init_vdso fb0 env_fail_mmap =
      .fatal ("failed to allocate vdso function pointer table: " ++
        env_fail_mmap.errno_str) :=
  (claim_C6 fb0 env_fail_mmap).1 rfl

/-- Counterexample to claim C7 as stated: with non-null fallbacks,
the degenerate image `c7_image` (whose matching symbol has
`st_value = 2^64 - base`, so the bias-translated value wraps to 0)
leaves the clock-gettime slot holding a null address. -/
theorem claim_C7_counterexample :
    fb0.clock_gettime_fallback ≠ 0 ∧ fb0.gettimeofday_fallback ≠ 0 ∧
      (libc_init_vdso_entries fb0 c7_image).VDSO_CLOCK_GETTIME.fn = 0 := by
  refine ⟨by decide, by decide, ?_⟩
  decide

/-- Claim C7 as amended: after initialization every slot holds a
non-null address, provided its fallback address is non-null and no
matching symbol's bias-translated value wraps to zero (the slot holds
either the fallback or such a bias-translated value). -/
theorem claim_C7_amended (fb : Fallbacks) (img : VdsoImage) (s : Fin 2)
    (hfb : slotFallback fb s ≠ 0)
    (hsafe : ∀ va st sy, discovery img = some (va, st, sy) →
      ∀ i, i < symbolCount img → symNameAt img st sy i = slotSymbol s →
        resolvedValue img sy va i ≠ 0) :
    (slotOf (libc_init_vdso_entries fb img) s).fn ≠ 0 := by
  cases hd : discovery img with
  | none =>
    rw [init_entries_of_none fb img hd, template_slot]
    exact hfb
  | some ctx =>
    obtain ⟨va, st, sy⟩ := ctx
    rw [init_entries_of_discovery fb img va st sy hd]
    unfold scanSymbols
    rw [scanFold_slot, template_slot]
    dsimp only
    rcases foldl_overwrite_spec
        (fun i : Nat => slotSymbol s = symNameAt img st sy i)
        (fun i => resolvedValue img sy va i)
        (List.range (symbolCount img)) (slotFallback fb s) with
      ⟨heq, _⟩ | ⟨x, hx, hpx, heq⟩
    · rw [heq]
      exact hfb
    · rw [heq]
      exact hsafe va st sy hd x (List.mem_range.mp hx) hpx.symm

/-- Witness for the amended C7 on an absent vdso with non-null
fallbacks. -/
theorem claim_C7_amended_witness :
    (slotOf (libc_init_vdso_entries fb0 null_image) 0).fn ≠ 0 :=
  claim_C7_amended fb0 null_image 0 (by decide)
    (fun va st sy h => Option.noConfusion h)

/-- Claim C8: each trampoline loads its slot's address from the
table, invokes the machine's function at that address with the
caller's arguments (and error indicator) unchanged, and returns
exactly that invocation's return value, output writes and
error-indicator effect, performing no other logic. -/
theorem claim_C8 (m : Machine) (e : VdsoEntries) (clock_id : Int) (tp : timespec)
    (tv : timeval) (tz : Option timezone) (errno : Int) :
    clock_gettime m e clock_id tp errno =
      m.call_clock_gettime e.VDSO_CLOCK_GETTIME.fn clock_id tp errno ∧
    gettimeofday m e tv tz errno =
      m.call_gettimeofday e.VDSO_GETTIMEOFDAY.fn tv tz errno :=
  ⟨rfl, rfl⟩

/-- Claim C10: discovery only ever overwrites a slot's address field;
after initialization the name field of every slot equals its
compile-time symbol string, for every object image and fallback
set. -/
theorem claim_C10 (fb : Fallbacks) (img : VdsoImage) (s : Fin 2) :
    (slotOf (libc_init_vdso_entries fb img) s).name = slotSymbol s := by
  cases hd : discovery img with
  | none =>
    rw [init_entries_of_none fb img hd, template_slot]
  | some ctx =>
    obtain ⟨va, st, sy⟩ := ctx
    rw [init_entries_of_discovery fb img va st sy hd]
    unfold scanSymbols
    rw [scanFold_slot, template_slot]

end Vdso
